import Mathlib

/-!
Shallow embedding of the event registration / waitlist workflow of the
emsbackend repository.

The embedded code is the pair of route handlers in the source file
`src/unnamed/part_005` (the enhanced events router, with waitlist support):

  * `POST /:id/register`  (lines 217-296), embedded as `register`
  * `DELETE /:id/register` (lines 299-317), embedded as `cancel`

and, separately, the alternative registration handler in
`src/backend/src/routes/events.js` (`POST /:id/register`, lines 186-228),
embedded as `registerB`.

All claims concern a single event, so the state carries that event (possibly
absent, to model `Event not found`) together with the list of its
registration rows in creation order (`registration_time` ascending; rows are
only ever appended, so list order is creation order).

JavaScript peculiarities that the handlers rely on are embedded explicitly:

  * `events.capacity` is a nullable column (`capacity INTEGER` in
    `src/unnamed/part_008`, line 26).  In `registered_count < capacity`
    a `null` capacity makes the comparison false (`jsLtCap`), and in the
    arithmetic `registered_count - capacity + 1` a `null` capacity coerces
    to 0 (`jsNumCap`).
  * the deadline guard at part_005 line 251 reads the camelCase property
    `event.registrationDeadline`, but every staged events schema declares
    the column as `registration_deadline` (snake_case, part_008 line 30),
    so the property is absent from the row object and the read yields
    undefined for every event (`jsRegistrationDeadline`); the guard is
    therefore always falsy and the DeadlinePassed branch is dead code.
    `deadlinePassedB` models the comparison the guard would make on a value.
  * `db.exec` in both staged db modules (`src/backend/src/db/index.js`) has
    no return statement, so the cancel handler's `result.changes` access
    (part_005 line 309) throws after the DELETE has executed and the catch
    handler reports the generic failure; the 404 and success responses are
    unreachable.

The whole register handler runs between `BEGIN` and `COMMIT`, with `ROLLBACK`
on every rejection and in the catch-all error handler, so a rejected or
failed call has no net effect on the store; the embedding returns the
unchanged state on those paths.  QR-code generation (`QRCode.toDataURL`) is
the ticket issuer; its possible failure is modelled by the `ticketOk` flag.
-/

/-- Status values the handlers ever write into `registrations.status`:
the register handler inserts either the string `confirmed` or the string
`waitlist` (part_005 line 257); no handler ever writes `cancelled`. -/
inductive RegStatus where
  | confirmed
  | waitlist
  deriving DecidableEq, Repr

/-- One row of the `registrations` table, restricted to the columns the
handlers read or write: `user_id`, `status`, and whether `qr_code` has been
set.  Rows are kept in creation order in `EventState.regs`. -/
structure Registration where
  user : Nat
  status : RegStatus
  qr : Bool
  deriving DecidableEq, Repr

/-- The columns of the `events` table that the register handler reads.
Both are nullable in the schema (`src/unnamed/part_008`, lines 26 and 30). -/
structure Event where
  capacity : Option Nat
  registrationDeadline : Option Nat
  deriving DecidableEq, Repr

/-- State of the store restricted to one event: the event row (absent models
`Event not found`) and its registration rows in creation order. -/
structure EventState where
  event : Option Event
  regs : List Registration
  deriving DecidableEq, Repr

/-- Errors the register handler can report. -/
inductive RegError where
  | duplicateRegistration
  | eventNotFound
  | deadlinePassed
  | systemError
  deriving DecidableEq, Repr

/-- Result of a register call: on success, the status, whether a `qrCode`
was returned, and the waitlist `position` (null for confirmed). -/
inductive RegOutcome where
  | ok (status : RegStatus) (qrCode : Bool) (position : Option Int)
  | err (e : RegError)
  deriving DecidableEq, Repr

/-- Response of the cancel handler.  `db.exec` returns undefined in both
staged db modules, so the handler's `result.changes` access throws after
the DELETE and the catch handler answers with the generic failure; the
success and `Registration not found` responses in the source are dead
code. -/
inductive CancelOutcome where
  | serverError
  deriving DecidableEq, Repr

/-- The subquery `SELECT COUNT(*) FROM registrations WHERE event_id = e.id
AND status = confirmed` (part_005 lines 239-240). -/
def confirmedCount (regs : List Registration) : Nat :=
  (regs.filter (fun r => r.status = RegStatus.confirmed)).length

/-- The count of `waitlist` rows for the event. -/
def waitlistCount (regs : List Registration) : Nat :=
  (regs.filter (fun r => r.status = RegStatus.waitlist)).length

/-- The duplicate check `SELECT * FROM registrations WHERE event_id = ? AND
user_id = ?` returning a nonempty result (part_005 lines 226-231): any row
for the pair, whatever its status. -/
def hasReg (u : Nat) (s : EventState) : Bool :=
  s.regs.any (fun r => r.user == u)

/-- The comparison the guard `v && new Date(v) < new Date()` (part_005
line 251) makes on a value `v`: no rejection when `v` is absent, strict
less-than otherwise. -/
def deadlinePassedB (dl : Option Nat) (now : Nat) : Bool :=
  match dl with
  | some d => d < now
  | none => false

/-- The value of the JavaScript expression `event.registrationDeadline` in
the guard (part_005 line 251).  The row object's keys are the schema's
column names, and every staged events schema declares the column as
`registration_deadline` (snake_case, `src/unnamed/part_008` line 30), so
the camelCase property is absent and the read yields undefined for every
event, whatever the column holds. -/
def jsRegistrationDeadline (_e : Event) : Option Nat := none

/-- The comparison `event.registered_count < event.capacity`
(part_005 line 257).  When `capacity` is NULL, the JavaScript relational
comparison `n < null` is false for every count. -/
def jsLtCap (cnt : Nat) (cap : Option Nat) : Bool :=
  match cap with
  | some c => cnt < c
  | none => false

/-- The value of `event.capacity` inside the arithmetic
`event.registered_count - event.capacity + 1` (part_005 line 288):
JavaScript coerces a NULL capacity to 0 there. -/
def jsNumCap (cap : Option Nat) : Int :=
  match cap with
  | some c => (c : Int)
  | none => 0

/-- The handler `POST /:id/register` of `src/unnamed/part_005`
(lines 217-296), as the net effect of its transaction:

1. rows already exist for (event, user) -> rollback, `Already registered`;
2. event row missing -> rollback, `Event not found`;
3. the deadline guard reads `event.registrationDeadline`, a property that
   does not exist on the row (the column is `registration_deadline`), so
   the `deadline has passed` rejection is unreachable;
4. status is `confirmed` when `registered_count < capacity`, else
   `waitlist`; the row is inserted, and for a confirmed row the QR code is
   generated and attached; a QR failure reaches the catch-all handler,
   which rolls the whole transaction back (`ticketOk = false`);
5. the response carries the status, the QR code for confirmed rows, and
   `position = registered_count - capacity + 1` for waitlisted rows. -/
def register (now u : Nat) (ticketOk : Bool) (s : EventState) :
    RegOutcome × EventState :=
  if hasReg u s then
    (RegOutcome.err RegError.duplicateRegistration, s)
  else
    match s.event with
    | none => (RegOutcome.err RegError.eventNotFound, s)
    | some e =>
      if deadlinePassedB (jsRegistrationDeadline e) now then
        (RegOutcome.err RegError.deadlinePassed, s)
      else
        let cnt := confirmedCount s.regs
        let st := if jsLtCap cnt e.capacity then RegStatus.confirmed
                  else RegStatus.waitlist
        if st = RegStatus.confirmed ∧ ticketOk = false then
          (RegOutcome.err RegError.systemError, s)
        else
          (RegOutcome.ok st (decide (st = RegStatus.confirmed))
            (if st = RegStatus.waitlist then
              some ((cnt : Int) - jsNumCap e.capacity + 1)
            else none),
           { s with regs :=
              s.regs ++ [⟨u, st, decide (st = RegStatus.confirmed)⟩] })

/-- The handler `DELETE /:id/register` of `src/unnamed/part_005`
(lines 299-317): it runs `DELETE FROM registrations WHERE event_id = ? AND
user_id = ?` and then reads `result.changes`; but `db.exec` has no return
statement (both staged db modules in `src/backend/src/db/index.js`), so
`result` is undefined, the property access throws, and the catch handler
answers the generic failure.  Net effect: the caller's rows are deleted
(never updated to a `cancelled` status) and the response is always the
server error. -/
def cancel (u : Nat) (s : EventState) : CancelOutcome × EventState :=
  (CancelOutcome.serverError,
   { s with regs := s.regs.filter (fun r => !(r.user == u)) })

/-- One inbound request against the event: a register call (with its wall
clock and the ticket issuer's behaviour) or a cancel call. -/
inductive Op where
  | register (now u : Nat) (ticketOk : Bool)
  | cancel (u : Nat)
  deriving DecidableEq, Repr

/-- State reached after one request (the handler's response is dropped). -/
def applyOp (s : EventState) : Op → EventState
  | Op.register now u t => (register now u t s).2
  | Op.cancel u => (cancel u s).2

/-- State reached after a sequence of requests. -/
def run (s : EventState) (ops : List Op) : EventState :=
  ops.foldl applyOp s

/-- An event freshly created with the given capacity and deadline columns
and no registrations. -/
def initState (cap dl : Option Nat) : EventState :=
  { event := some { capacity := cap, registrationDeadline := dl }, regs := [] }

/-- Errors of the alternative handler in `src/backend/src/routes/events.js`. -/
inductive BErr where
  | eventNotFound
  | fullCapacity
  | alreadyRegistered
  | systemError
  deriving DecidableEq, Repr

/-- Result of the alternative register handler: on success it returns the
new registration's QR code (every success is a confirmed registration). -/
inductive BOutcome where
  | ok (qrCode : Bool)
  | err (e : BErr)
  deriving DecidableEq, Repr

/-- The check `registrationCount[0].count >= event.capacity`
(`src/backend/src/routes/events.js`, line 203).  In JavaScript a NULL
capacity coerces to 0 in `>=`, so the check then holds for every count. -/
def capFull (cnt : Nat) (cap : Option Nat) : Bool :=
  match cap with
  | some c => c ≤ cnt
  | none => true

/-- The handler `POST /:id/register` of `src/backend/src/routes/events.js`
(lines 186-228), no waitlist:

1. event row missing -> `Event not found`;
2. confirmed count at or above capacity -> `Event is at full capacity`;
3. rows already exist for (event, user) -> `Already registered`;
4. QR code generated, then the row inserted with status `confirmed` and the
   QR code attached; a QR failure reaches the catch-all handler before the
   insert, so nothing is written (`ticketOk = false`). -/
def registerB (u : Nat) (ticketOk : Bool) (s : EventState) :
    BOutcome × EventState :=
  match s.event with
  | none => (BOutcome.err BErr.eventNotFound, s)
  | some e =>
    if capFull (confirmedCount s.regs) e.capacity then
      (BOutcome.err BErr.fullCapacity, s)
    else if hasReg u s then
      (BOutcome.err BErr.alreadyRegistered, s)
    else if ticketOk = false then
      (BOutcome.err BErr.systemError, s)
    else
      (BOutcome.ok true,
       { s with regs := s.regs ++ [⟨u, RegStatus.confirmed, true⟩] })

/-- The response reports a confirmed registration. -/
def isConfirmedOk : RegOutcome → Bool
  | RegOutcome.ok RegStatus.confirmed _ _ => true
  | _ => false

/-- The response reports a success of either kind. -/
def isOk : RegOutcome → Bool
  | RegOutcome.ok _ _ _ => true
  | RegOutcome.err _ => false

/-! Path lemmas for the register handler: one per branch of the code. -/

lemma register_dup (now u : Nat) (t : Bool) (s : EventState)
    (h : hasReg u s = true) :
    register now u t s = (RegOutcome.err RegError.duplicateRegistration, s) := by
  simp [register, h]

lemma register_noEvent (now u : Nat) (t : Bool) (s : EventState)
    (hd : hasReg u s = false) (h : s.event = none) :
    register now u t s = (RegOutcome.err RegError.eventNotFound, s) := by
  simp [register, hd, h]

lemma register_confirmed (now u : Nat) (s : EventState) (e : Event)
    (hd : hasReg u s = false) (he : s.event = some e)
    (hc : jsLtCap (confirmedCount s.regs) e.capacity = true) :
    register now u true s =
      (RegOutcome.ok RegStatus.confirmed true none,
       { s with regs := s.regs ++ [⟨u, RegStatus.confirmed, true⟩] }) := by
  simp [register, hd, he, hc, jsRegistrationDeadline, deadlinePassedB]

lemma register_ticketFail (now u : Nat) (s : EventState) (e : Event)
    (hd : hasReg u s = false) (he : s.event = some e)
    (hc : jsLtCap (confirmedCount s.regs) e.capacity = true) :
    register now u false s = (RegOutcome.err RegError.systemError, s) := by
  simp [register, hd, he, hc, jsRegistrationDeadline, deadlinePassedB]

lemma register_waitlisted (now u : Nat) (t : Bool) (s : EventState) (e : Event)
    (hd : hasReg u s = false) (he : s.event = some e)
    (hc : jsLtCap (confirmedCount s.regs) e.capacity = false) :
    register now u t s =
      (RegOutcome.ok RegStatus.waitlist false
        (some ((confirmedCount s.regs : Int) - jsNumCap e.capacity + 1)),
       { s with regs := s.regs ++ [⟨u, RegStatus.waitlist, false⟩] }) := by
  simp [register, hd, he, hc, jsRegistrationDeadline, deadlinePassedB]

/-- Every register call either rejects with the state unchanged, or appends
exactly one row for the caller: a confirmed row with a QR code when there
was room (and ticket issuance succeeded), a waitlisted row without one
otherwise. -/
lemma register_shape (now u : Nat) (t : Bool) (s : EventState) :
    ((∃ er, (register now u t s).1 = RegOutcome.err er) ∧
      (register now u t s).2 = s) ∨
    (∃ e, s.event = some e ∧ hasReg u s = false ∧
      ((t = true ∧ jsLtCap (confirmedCount s.regs) e.capacity = true ∧
        register now u t s = (RegOutcome.ok RegStatus.confirmed true none,
          { s with regs := s.regs ++ [⟨u, RegStatus.confirmed, true⟩] })) ∨
       (jsLtCap (confirmedCount s.regs) e.capacity = false ∧
        register now u t s = (RegOutcome.ok RegStatus.waitlist false
            (some ((confirmedCount s.regs : Int) - jsNumCap e.capacity + 1)),
          { s with regs := s.regs ++ [⟨u, RegStatus.waitlist, false⟩] })))) := by
  cases hd : hasReg u s with
  | true =>
    exact Or.inl ⟨⟨_, by rw [register_dup now u t s hd]⟩,
      by rw [register_dup now u t s hd]⟩
  | false =>
    cases he : s.event with
    | none =>
      exact Or.inl ⟨⟨_, by rw [register_noEvent now u t s hd he]⟩,
        by rw [register_noEvent now u t s hd he]⟩
    | some e =>
      cases hc : jsLtCap (confirmedCount s.regs) e.capacity with
      | true =>
        cases t with
        | true =>
          refine Or.inr ⟨e, rfl, rfl, Or.inl ⟨rfl, hc, ?_⟩⟩
          rw [register_confirmed now u s e hd he hc, he]
        | false =>
          exact Or.inl ⟨⟨_, by rw [register_ticketFail now u s e hd he hc]⟩,
            by rw [register_ticketFail now u s e hd he hc]⟩
      | false =>
        refine Or.inr ⟨e, rfl, rfl, Or.inr ⟨hc, ?_⟩⟩
        rw [register_waitlisted now u t s e hd he hc, he]

/-- Appending a confirmed row raises the confirmed count by one. -/
lemma confirmedCount_append_confirmed (l : List Registration) (u : Nat) (q : Bool) :
    confirmedCount (l ++ [⟨u, RegStatus.confirmed, q⟩]) = confirmedCount l + 1 := by
  simp [confirmedCount, List.filter_append]

/-- Appending a waitlisted row leaves the confirmed count unchanged. -/
lemma confirmedCount_append_waitlist (l : List Registration) (u : Nat) (q : Bool) :
    confirmedCount (l ++ [⟨u, RegStatus.waitlist, q⟩]) = confirmedCount l := by
  simp [confirmedCount, List.filter_append]

/-- Removing rows can only lower the confirmed count. -/
lemma confirmedCount_filter_le (l : List Registration) (p : Registration → Bool) :
    confirmedCount (l.filter p) ≤ confirmedCount l := by
  exact List.Sublist.length_le (List.Sublist.filter _ (List.filter_sublist l))

/-- No handler ever touches the `events` row: register only inserts or
updates registrations, cancel only deletes them. -/
lemma register_event (now u : Nat) (t : Bool) (s : EventState) :
    ((register now u t s).2).event = s.event := by
  rcases register_shape now u t s with ⟨_, h⟩ | ⟨e, _, _, ⟨_, _, h⟩ | ⟨_, h⟩⟩ <;>
    rw [h]

lemma cancel_event (u : Nat) (s : EventState) :
    ((cancel u s).2).event = s.event := rfl

lemma applyOp_event (s : EventState) (op : Op) :
    (applyOp s op).event = s.event := by
  cases op with
  | register now u t => exact register_event now u t s
  | cancel u => exact cancel_event u s

lemma run_event (s : EventState) (ops : List Op) :
    (run s ops).event = s.event := by
  induction ops generalizing s with
  | nil => rfl
  | cons op ops ih => rw [run, List.foldl_cons, ← run, ih, applyOp_event]

/-- The rows left by a cancel call are exactly the rows of other users. -/
lemma cancel_regs (u : Nat) (s : EventState) :
    ((cancel u s).2).regs = s.regs.filter (fun r => !(r.user == u)) := rfl

/-- One request preserves the capacity bound on the confirmed count. -/
lemma confirmedCount_applyOp (s : EventState) (e : Event) (c : Nat) (op : Op)
    (he : s.event = some e) (hcap : e.capacity = some c)
    (h : confirmedCount s.regs ≤ c) :
    confirmedCount (applyOp s op).regs ≤ c := by
  cases op with
  | register now u t =>
    show confirmedCount ((register now u t s).2).regs ≤ c
    rcases register_shape now u t s with ⟨_, hstate⟩ |
      ⟨e2, he2, _, ⟨_, hc2, hreg⟩ | ⟨_, hreg⟩⟩
    · rw [hstate]; exact h
    · have hee : e2 = e := by
        rw [he] at he2; exact (Option.some.inj he2).symm
      rw [hreg]
      dsimp only
      rw [confirmedCount_append_confirmed]
      have hlt : confirmedCount s.regs < c := by
        rw [hee, hcap] at hc2
        simpa [jsLtCap] using hc2
      omega
    · rw [hreg]
      dsimp only
      rw [confirmedCount_append_waitlist]
      exact h
  | cancel u =>
    show confirmedCount ((cancel u s).2).regs ≤ c
    rw [cancel_regs]
    exact le_trans (confirmedCount_filter_le _ _) h

/-- Any sequence of requests preserves the capacity bound. -/
lemma confirmedCount_run (e : Event) (c : Nat) (ops : List Op) :
    ∀ s : EventState, s.event = some e → e.capacity = some c →
      confirmedCount s.regs ≤ c → confirmedCount (run s ops).regs ≤ c := by
  induction ops with
  | nil => intro s _ _ h; exact h
  | cons op ops ih =>
    intro s he hcap h
    rw [run, List.foldl_cons, ← run]
    exact ih (applyOp s op) (by rw [applyOp_event, he]) hcap
      (confirmedCount_applyOp s e c op he hcap h)

/-- One request preserves the property that every confirmed row carries a
QR code. -/
lemma ticketInv_applyOp (s : EventState) (op : Op)
    (h : ∀ r ∈ s.regs, r.status = RegStatus.confirmed → r.qr = true) :
    ∀ r ∈ (applyOp s op).regs, r.status = RegStatus.confirmed → r.qr = true := by
  cases op with
  | register now u t =>
    show ∀ r ∈ ((register now u t s).2).regs, _
    rcases register_shape now u t s with ⟨_, hstate⟩ |
      ⟨e2, _, _, ⟨_, _, hreg⟩ | ⟨_, hreg⟩⟩
    · rw [hstate]; exact h
    · rw [hreg]
      intro r hr hcf
      rcases List.mem_append.mp hr with hr | hr
      · exact h r hr hcf
      · rw [List.mem_singleton.mp hr]
    · rw [hreg]
      intro r hr hcf
      rcases List.mem_append.mp hr with hr | hr
      · exact h r hr hcf
      · rw [List.mem_singleton.mp hr] at hcf
        simp at hcf
  | cancel u =>
    show ∀ r ∈ ((cancel u s).2).regs, _
    rw [cancel_regs]
    intro r hr hcf
    exact h r (List.mem_of_mem_filter hr) hcf

/-- Any sequence of requests preserves the ticket property. -/
lemma ticketInv_run (ops : List Op) :
    ∀ s : EventState,
      (∀ r ∈ s.regs, r.status = RegStatus.confirmed → r.qr = true) →
      ∀ r ∈ (run s ops).regs, r.status = RegStatus.confirmed → r.qr = true := by
  induction ops with
  | nil => intro s h; exact h
  | cons op ops ih =>
    intro s h
    rw [run, List.foldl_cons, ← run]
    exact ih (applyOp s op) (ticketInv_applyOp s op h)

/-- A register call on an existing event, before the deadline, by a user
with no row, succeeds when ticket issuance succeeds. -/
lemma register_ok_of (now u : Nat) (s : EventState) (e : Event)
    (he : s.event = some e) (hd : hasReg u s = false) :
    isOk (register now u true s).1 = true := by
  cases hc : jsLtCap (confirmedCount s.regs) e.capacity with
  | true => rw [register_confirmed now u s e hd he hc]; rfl
  | false => rw [register_waitlisted now u true s e hd he hc]; rfl

/-- A successful register call leaves a row for the caller. -/
lemma hasReg_of_ok (now u : Nat) (t : Bool) (s : EventState)
    (h : isOk (register now u t s).1 = true) :
    hasReg u ((register now u t s).2) = true := by
  rcases register_shape now u t s with ⟨⟨er, herr⟩, _⟩ |
    ⟨e2, _, _, ⟨_, _, hreg⟩ | ⟨_, hreg⟩⟩
  · rw [herr] at h; simp [isOk] at h
  · rw [hreg]
    simp [hasReg]
  · rw [hreg]
    simp [hasReg]

/-- A row for user `u` survives every request other than a cancel by `u`. -/
lemma hasReg_applyOp (u : Nat) (s : EventState) (op : Op)
    (h : hasReg u s = true) (hop : op ≠ Op.cancel u) :
    hasReg u (applyOp s op) = true := by
  cases op with
  | register now v t =>
    show hasReg u ((register now v t s).2) = true
    rcases register_shape now v t s with ⟨_, hstate⟩ |
      ⟨e2, _, _, ⟨_, _, hreg⟩ | ⟨_, hreg⟩⟩ <;>
      first
        | (rw [hstate]; exact h)
        | (rw [hreg]
           simp only [hasReg, List.any_append, Bool.or_eq_true]
           exact Or.inl h)
  | cancel v =>
    have hv : v ≠ u := fun hvu => hop (by rw [hvu])
    show hasReg u ((cancel v s).2) = true
    rw [hasReg, cancel_regs]
    rcases List.any_eq_true.mp h with ⟨r, hr, hru⟩
    refine List.any_eq_true.mpr ⟨r, List.mem_filter.mpr ⟨hr, ?_⟩, hru⟩
    have : r.user = u := by simpa using hru
    simp [this, hv, Ne.symm hv]

/-- A row for user `u` survives every request sequence with no cancel
by `u`. -/
lemma hasReg_run (u : Nat) (ops : List Op) :
    ∀ s : EventState, hasReg u s = true →
      (∀ op ∈ ops, op ≠ Op.cancel u) → hasReg u (run s ops) = true := by
  induction ops with
  | nil => intro s h _; exact h
  | cons op ops ih =>
    intro s h hops
    rw [run, List.foldl_cons, ← run]
    exact ih (applyOp s op)
      (hasReg_applyOp u s op h (hops op (List.mem_cons_self op ops)))
      (fun o ho => hops o (List.mem_cons_of_mem op ho))

/-- After a cancel by `u`, no row for `u` remains. -/
lemma hasReg_cancel_self (u : Nat) (s : EventState) :
    hasReg u ((cancel u s).2) = false := by
  rw [hasReg, cancel_regs]
  rw [List.any_eq_false]
  intro r hr
  rcases List.mem_filter.mp hr with ⟨_, hne⟩
  simpa using hne

/-- Claim C1 (confirmed): for every event and every sequence of register and
cancel requests on it, with the event's capacity fixed at `c`, the number of
registrations with status `confirmed` never exceeds `c`. -/
theorem capacity_invariant (c : Nat) (dl : Option Nat) (ops : List Op) :
    confirmedCount (run (initState (some c) dl) ops).regs ≤ c :=
  confirmedCount_run (Event.mk (some c) dl) c ops (initState (some c) dl)
    rfl rfl (Nat.zero_le c)

/-- Claim C2, counterexample: event of capacity 1; user 1 is confirmed,
users 2 and 3 are waitlisted in that order; user 1 cancels.  The claim says
the earliest waitlisted registration (user 2) is promoted to confirmed and
gets a ticket; in the code nobody is promoted: both remaining rows are
still waitlisted without a ticket and the confirmed count drops to 0. -/
theorem cancel_no_promotion_counterexample :
    (run (initState (some 1) none)
        [Op.register 0 1 true, Op.register 0 2 true, Op.register 0 3 true,
         Op.cancel 1]).regs
      = [Registration.mk 2 RegStatus.waitlist false,
         Registration.mk 3 RegStatus.waitlist false] ∧
    confirmedCount (run (initState (some 1) none)
        [Op.register 0 1 true, Op.register 0 2 true, Op.register 0 3 true,
         Op.cancel 1]).regs = 0 := by
  decide

/-- Claim C2 as amended: cancel deletes the caller's registration rows and
changes no other row; in particular no waitlisted registration is promoted,
and the confirmed count never increases on a cancel. -/
theorem cancel_never_promotes (u : Nat) (s : EventState) :
    ((cancel u s).2).regs = s.regs.filter (fun r => !(r.user == u)) ∧
    confirmedCount ((cancel u s).2).regs ≤ confirmedCount s.regs := by
  refine ⟨cancel_regs u s, ?_⟩
  rw [cancel_regs]
  exact confirmedCount_filter_le _ _

/-- Claim C3, counterexample: one confirmed registration for user 1; after
the cancel the row is gone (the claim says it remains with terminal status
`cancelled`), and the handler answers the generic failure, since reading
`.changes` off the undefined return of `db.exec` throws after the
DELETE. -/
theorem cancel_deletes_row_counterexample :
    (cancel 1 (run (initState (some 1) none) [Op.register 0 1 true])).2.regs
      = [] ∧
    (cancel 1 (run (initState (some 1) none) [Op.register 0 1 true])).1
      = CancelOutcome.serverError := by
  decide

/-- Claim C3 as amended: cancel deletes every registration row of the
caller for the event — no row remains, in any status, and nothing is ever
set to `cancelled` — and the handler always responds with the generic
failure: it dereferences `.changes` on the undefined return of `db.exec`
after the delete, so neither the success nor the `Registration not found`
response is reachable. -/
theorem cancel_removes_rows (u : Nat) (s : EventState) :
    hasReg u ((cancel u s).2) = false ∧
    (cancel u s).1 = CancelOutcome.serverError :=
  ⟨hasReg_cancel_self u s, rfl⟩

/-- Claim C4 (confirmed): every rejection or failure of register leaves the
state exactly as before the call; a ticket-issuance failure on a
registration that would be confirmed aborts the whole unit of work; and in
every reachable state no confirmed registration exists without a ticket. -/
theorem register_rollback_atomicity :
    (∀ (now u : Nat) (t : Bool) (s : EventState) (er : RegError),
      (register now u t s).1 = RegOutcome.err er →
      (register now u t s).2 = s) ∧
    (∀ (now u : Nat) (s : EventState) (e : Event) (c : Nat),
      s.event = some e → e.capacity = some c → hasReg u s = false →
      deadlinePassedB e.registrationDeadline now = false →
      confirmedCount s.regs < c →
      register now u false s = (RegOutcome.err RegError.systemError, s)) ∧
    (∀ (cap dl : Option Nat) (ops : List Op) (r : Registration),
      r ∈ (run (initState cap dl) ops).regs →
      r.status = RegStatus.confirmed → r.qr = true) := by
  refine ⟨?_, ?_, ?_⟩
  · intro now u t s er herr
    rcases register_shape now u t s with ⟨_, hstate⟩ |
      ⟨e2, _, _, ⟨_, _, hreg⟩ | ⟨_, hreg⟩⟩
    · exact hstate
    · rw [hreg] at herr
      simp at herr
    · rw [hreg] at herr
      simp at herr
  · intro now u s e c he hcap hd hdl hlt
    apply register_ticketFail now u s e hd he
    rw [hcap]
    simpa [jsLtCap] using hlt
  · intro cap dl ops r hr hcf
    refine ticketInv_run ops (initState cap dl) ?_ r hr hcf
    intro r2 hr2
    exact absurd hr2 (List.not_mem_nil r2)

/-- Witness for claim C4: a register call on a missing event leaves the
state unchanged; a ticket failure with a free slot returns the system error
with the state unchanged; the confirmed row produced by a successful
register call carries its QR code. -/
theorem register_rollback_atomicity_witness :
    (register 0 1 true (EventState.mk none [])).2 = EventState.mk none [] ∧
    register 0 1 false (initState (some 2) none)
      = (RegOutcome.err RegError.systemError, initState (some 2) none) ∧
    (Registration.mk 1 RegStatus.confirmed true).qr = true :=
  ⟨register_rollback_atomicity.1 0 1 true (EventState.mk none [])
      RegError.eventNotFound (by decide),
   register_rollback_atomicity.2.1 0 1 (initState (some 2) none)
      (Event.mk (some 2) none) 2 rfl rfl (by decide) rfl (by decide),
   register_rollback_atomicity.2.2 (some 2) none [Op.register 0 1 true]
      (Registration.mk 1 RegStatus.confirmed true) (by decide) rfl⟩

/-- Claim C5, counterexample: event with absent (unbounded) capacity, no
deadline, fresh user.  The claim says the registration is confirmed with a
ticket; the code compares `0 < null`, which is false, and waitlists the
user with no ticket (and position `0 - null + 1 = 1`). -/
theorem unbounded_capacity_counterexample :
    register 0 1 true (initState none none)
      = (RegOutcome.ok RegStatus.waitlist false (some 1),
         EventState.mk (some (Event.mk none none))
           [Registration.mk 1 RegStatus.waitlist false]) ∧
    isConfirmedOk (register 0 1 true (initState none none)).1 = false := by
  decide

/-- Claim C5 as amended: for a register call on an existing event before its
deadline by a user with no registration row, if the capacity is present and
the confirmed count is strictly below it, the new registration is confirmed
with a ticket attached; otherwise, including when the capacity is absent,
it is waitlisted with no ticket. -/
theorem register_capacity_branching (now u c : Nat) (t : Bool)
    (s : EventState) (e : Event) (he : s.event = some e)
    (hd : hasReg u s = false)
    (hdl : deadlinePassedB e.registrationDeadline now = false) :
    (e.capacity = some c → confirmedCount s.regs < c →
      register now u true s = (RegOutcome.ok RegStatus.confirmed true none,
        { s with regs := s.regs ++ [⟨u, RegStatus.confirmed, true⟩] })) ∧
    ((e.capacity = none ∨ (e.capacity = some c ∧ c ≤ confirmedCount s.regs)) →
      register now u t s = (RegOutcome.ok RegStatus.waitlist false
          (some ((confirmedCount s.regs : Int) - jsNumCap e.capacity + 1)),
        { s with regs := s.regs ++ [⟨u, RegStatus.waitlist, false⟩] })) := by
  constructor
  · intro hcap hlt
    apply register_confirmed now u s e hd he
    rw [hcap]
    simpa [jsLtCap] using hlt
  · intro hcase
    apply register_waitlisted now u t s e hd he
    rcases hcase with hnone | ⟨hcap, hge⟩
    · rw [hnone]
      rfl
    · rw [hcap]
      simp [jsLtCap]
      omega

/-- Witness for claim C5: on a fresh capacity-1 event user 1 is confirmed
with a ticket; on the resulting full event user 2 is waitlisted without
one. -/
theorem register_capacity_branching_witness :
    register 0 1 true (initState (some 1) none)
      = (RegOutcome.ok RegStatus.confirmed true none,
         EventState.mk (some (Event.mk (some 1) none))
           [Registration.mk 1 RegStatus.confirmed true]) ∧
    register 0 2 true (EventState.mk (some (Event.mk (some 1) none))
        [Registration.mk 1 RegStatus.confirmed true])
      = (RegOutcome.ok RegStatus.waitlist false (some 1),
         EventState.mk (some (Event.mk (some 1) none))
           [Registration.mk 1 RegStatus.confirmed true,
            Registration.mk 2 RegStatus.waitlist false]) := by
  constructor
  · exact (register_capacity_branching 0 1 1 true (initState (some 1) none)
      (Event.mk (some 1) none) rfl rfl rfl).1 rfl (by decide)
  · exact (register_capacity_branching 0 2 1 true
      (EventState.mk (some (Event.mk (some 1) none))
        [Registration.mk 1 RegStatus.confirmed true])
      (Event.mk (some 1) none) rfl (by decide) rfl).2 (Or.inr ⟨rfl, by decide⟩)

/-- Claim C6, counterexample: capacity 1, user 1 confirmed, user 2 already
waitlisted; user 3 registers and becomes the second waitlisted row, so the
1-based rank of the new registration among waitlisted rows in creation
order is 2, yet the returned position is `confirmedCount - capacity + 1 =
1 - 1 + 1 = 1`, not 2. -/
theorem waitlist_position_not_rank_counterexample :
    (register 0 3 true (run (initState (some 1) none)
        [Op.register 0 1 true, Op.register 0 2 true])).1
      = RegOutcome.ok RegStatus.waitlist false (some 1) ∧
    waitlistCount ((register 0 3 true (run (initState (some 1) none)
        [Op.register 0 1 true, Op.register 0 2 true])).2).regs = 2 ∧
    (register 0 3 true (run (initState (some 1) none)
        [Op.register 0 1 true, Op.register 0 2 true])).1
      ≠ RegOutcome.ok RegStatus.waitlist false (some 2) := by
  decide

/-- Claim C6 as amended: whenever register waitlists a user on an event
whose capacity is present and whose confirmed count respects it, the
returned position equals `confirmedCount - capacity + 1` computed at
insertion time, and that value is always 1 regardless of how many earlier
waitlisted rows exist, so it agrees with the 1-based FIFO rank only when
that rank is 1. -/
theorem waitlist_position_formula (now u : Nat) (t : Bool) (s : EventState)
    (e : Event) (c : Nat) (q : Bool) (p : Option Int)
    (he : s.event = some e) (hcap : e.capacity = some c)
    (hinv : confirmedCount s.regs ≤ c)
    (hres : (register now u t s).1 = RegOutcome.ok RegStatus.waitlist q p) :
    p = some ((confirmedCount s.regs : Int) - (c : Int) + 1) ∧
    p = some 1 := by
  rcases register_shape now u t s with ⟨⟨er, herr⟩, _⟩ |
    ⟨e2, he2, _, ⟨_, _, hreg⟩ | ⟨hc2, hreg⟩⟩
  · rw [herr] at hres
    simp at hres
  · rw [hreg] at hres
    simp at hres
  · have he2e : e2 = e := by
      rw [he] at he2
      exact (Option.some.inj he2).symm
    rw [hreg] at hres
    dsimp only at hres
    have hp : p = some ((confirmedCount s.regs : Int) - jsNumCap e2.capacity + 1) := by
      injection hres with h1 h2 h3
      exact h3.symm
    have hcap2 : e2.capacity = some c := by rw [he2e, hcap]
    rw [hcap2] at hc2
    have hge : ¬ confirmedCount s.regs < c := by
      simpa [jsLtCap] using hc2
    have hcnt : confirmedCount s.regs = c := by omega
    rw [hp, hcap2, hcnt]
    exact ⟨rfl, by simp [jsNumCap]⟩

/-- Witness for claim C6: user 2 is waitlisted on a full capacity-1 event
and the returned position, 1, equals the insertion-time formula. -/
theorem waitlist_position_formula_witness :
    (some 1 : Option Int)
      = some ((confirmedCount [Registration.mk 1 RegStatus.confirmed true] : Int)
          - (1 : Int) + 1) ∧
    (some 1 : Option Int) = some 1 :=
  waitlist_position_formula 0 2 true
    (EventState.mk (some (Event.mk (some 1) none))
      [Registration.mk 1 RegStatus.confirmed true])
    (Event.mk (some 1) none) 1 false (some 1) rfl rfl (by decide) (by decide)

/-- Claim C7, code bug: the guard at part_005 line 251 reads the camelCase
property `event.registrationDeadline`, which does not exist on rows of any
staged events schema (the column is `registration_deadline`, part_008 line
30), so the guard is always undefined-falsy and the handler never rejects
with the deadline error.  At the failing input — deadline column 3, clock
5, fresh user 1 on an empty capacity-2 event — the code confirms the user
and creates a row, while the claim (and the handler's own dead branch)
calls for a DeadlinePassed rejection with no row. -/
theorem deadline_check_unreachable :
    register 5 1 true (initState (some 2) (some 3))
      = (RegOutcome.ok RegStatus.confirmed true none,
         EventState.mk (some (Event.mk (some 2) (some 3)))
           [Registration.mk 1 RegStatus.confirmed true]) ∧
    jsRegistrationDeadline (Event.mk (some 2) (some 3)) = none ∧
    (Event.mk (some 2) (some 3)).registrationDeadline = some 3 ∧
    deadlinePassedB (some 3) 5 = true := by
  decide

/-- Claim C8 (confirmed): with the event present and the deadline not
passed, a first register call by a fresh user succeeds; after it, any
further register call by the same user rejects with the duplicate error and
changes nothing, across any interleaved requests that are not a cancel by
that user; after the user cancels, their rows are gone and a new register
call succeeds again. -/
theorem register_duplicate_until_cancel
    (now1 now2 now3 : Nat) (t : Bool) (u : Nat) (s : EventState) (e : Event)
    (ops : List Op)
    (he : s.event = some e)
    (hdl1 : deadlinePassedB e.registrationDeadline now1 = false)
    (hdl3 : deadlinePassedB e.registrationDeadline now3 = false)
    (hd : hasReg u s = false)
    (hops : ∀ op ∈ ops, op ≠ Op.cancel u) :
    isOk (register now1 u true s).1 = true ∧
    (register now2 u t (run ((register now1 u true s).2) ops)).1
      = RegOutcome.err RegError.duplicateRegistration ∧
    (register now2 u t (run ((register now1 u true s).2) ops)).2
      = run ((register now1 u true s).2) ops ∧
    isOk (register now3 u true
      ((cancel u (run ((register now1 u true s).2) ops)).2)).1 = true := by
  have hok : isOk (register now1 u true s).1 = true :=
    register_ok_of now1 u s e he hd
  have h1 : hasReg u ((register now1 u true s).2) = true :=
    hasReg_of_ok now1 u true s hok
  have h2 : hasReg u (run ((register now1 u true s).2) ops) = true :=
    hasReg_run u ops _ h1 hops
  have hdup := register_dup now2 u t _ h2
  have h3 : hasReg u ((cancel u (run ((register now1 u true s).2) ops)).2)
      = false := hasReg_cancel_self u _
  have hev3 : ((cancel u (run ((register now1 u true s).2) ops)).2).event
      = some e := by
    rw [cancel_event, run_event, register_event, he]
  exact ⟨hok, by rw [hdup], by rw [hdup],
    register_ok_of now3 u _ e hev3 h3⟩

/-- Witness for claim C8 on a capacity-1 event with no interleaved
requests: register succeeds, a second register is rejected as duplicate
with the state unchanged, and after the cancel a register succeeds. -/
theorem register_duplicate_until_cancel_witness :
    isOk (register 0 1 true (initState (some 1) none)).1 = true ∧
    (register 0 1 true (run ((register 0 1 true (initState (some 1) none)).2) [])).1
      = RegOutcome.err RegError.duplicateRegistration ∧
    (register 0 1 true (run ((register 0 1 true (initState (some 1) none)).2) [])).2
      = run ((register 0 1 true (initState (some 1) none)).2) [] ∧
    isOk (register 0 1 true
      ((cancel 1 (run ((register 0 1 true (initState (some 1) none)).2) [])).2)).1
      = true :=
  register_duplicate_until_cancel 0 0 0 true 1 (initState (some 1) none)
    (Event.mk (some 1) none) [] rfl rfl rfl rfl (by simp)

/-- Claim C10 (confirmed): in the alternative handler, a register call on
an event whose confirmed count has reached its capacity is rejected with
the full-capacity error and creates no row, whatever the caller's
registration state; in particular an already-registered user of a full
event receives the capacity error, not the duplicate error, because the
capacity check precedes the duplicate check. -/
theorem capacity_check_precedes_duplicate (u : Nat) (t : Bool)
    (s : EventState) (e : Event) (c : Nat)
    (he : s.event = some e) (hcap : e.capacity = some c)
    (hfull : c ≤ confirmedCount s.regs) :
    registerB u t s = (BOutcome.err BErr.fullCapacity, s) := by
  have hfullB : capFull (confirmedCount s.regs) e.capacity = true := by
    rw [hcap]
    simpa [capFull] using hfull
  simp [registerB, he, hfullB]

/-- Witness for claim C10: user 1 is already registered (confirmed) on a
full capacity-1 event; the handler reports the full-capacity error, not
the duplicate one, and writes nothing. -/
theorem capacity_check_precedes_duplicate_witness :
    registerB 1 true (EventState.mk (some (Event.mk (some 1) none))
        [Registration.mk 1 RegStatus.confirmed true])
      = (BOutcome.err BErr.fullCapacity,
         EventState.mk (some (Event.mk (some 1) none))
           [Registration.mk 1 RegStatus.confirmed true]) :=
  capacity_check_precedes_duplicate 1 true
    (EventState.mk (some (Event.mk (some 1) none))
      [Registration.mk 1 RegStatus.confirmed true])
    (Event.mk (some 1) none) 1 rfl rfl (by decide)
